import Mathlib

/-!
Shallow embedding of `src/inboxium/inboxium.py` and `src/inboxium/types.py`
(project `inboxium`): a minimal SMTP inbox that accumulates recipients,
normalizes the completed transaction into an `InboxMessage`, and dispatches it
through an ordered list of registered handlers.

Modelling conventions:
* Python is dynamically typed; the dispatch code compares handler constraint
  values to message fields with plain `==` and tests presence with truthiness.
  Constraint values are therefore modelled as `PyVal` (a string or a list of
  strings, the two shapes that occur at runtime: `Handler` annotations say
  `str | None`, while `InboxMessage.by` actually receives `envelope.rcpt_tos`,
  a list of strings; annotations are not enforced by the interpreter).
* Byte-level MIME parsing, charset decoding and header decoding are performed
  by the Python standard library (`email` package), an external collaborator.
  The parsed message is modelled structurally (`MimeMsg`) with part payloads
  already holding their decoded text, and the decoded `Subject` header held in
  `ParsedMsg.subject`.
* Handler callbacks are opaque; a callback is modelled by an identifier
  (`func : Nat`) together with a flag `raises` saying whether awaiting it
  raises an exception.
* A raised exception escaping `_get_body` (calling `.decode` on `None`) is
  modelled by `Option`: `none` is an escaping exception.
-/

/-- A Python runtime value occurring in constraint/field comparisons: either a
string or a list of strings.  Python `==` across the two shapes is `False`,
which coincides with constructor-distinctness of this type. -/
inductive PyVal where
  | str : String → PyVal
  | strList : List String → PyVal
deriving DecidableEq, Repr

/-- Python truthiness of an optional value: `None`, `""` and `[]` are falsy,
everything else occurring here is truthy. -/
def truthy : Option PyVal → Bool
  | none => false
  | some (.str s) => !s.isEmpty
  | some (.strList l) => !l.isEmpty

/-- Python `==` between an optional constraint value and a field value:
`None == v` is `False` for every string or list `v`. -/
def optPyEq : Option PyVal → PyVal → Bool
  | none, _ => false
  | some a, b => a == b

/-- Python truthiness of a `bool | None` value (`if h.block:`):
`None` and `False` are falsy, `True` is truthy. -/
def blockTruthy : Option Bool → Bool
  | none => false
  | some b => b

/-- `types.py`, `InboxMessage`: the frozen dataclass built by
`_prepare_message`.  Field `by` is spelled `by_` (Lean keyword); it receives
`envelope.rcpt_tos`, a list of strings, at runtime. -/
structure InboxMessage where
  by_ : List String
  sender : String
  subject : String
  text : String
  raw : String
  real_sender : String
deriving DecidableEq, Repr

/-- `types.py`, `Handler`: a registered handler.  `func` is the opaque
callback, modelled by an identifier plus the flag `raises` describing whether
invoking it raises.  Constraint fields default to `None` (`none`); `block`
defaults to `True` (`some true`). -/
structure Handler where
  func : Nat
  raises : Bool := false
  by_ : Option PyVal := none
  sender : Option PyVal := none
  subject : Option PyVal := none
  text : Option PyVal := none
  block : Option Bool := some true
deriving DecidableEq, Repr

/-- Structured mail message as produced by the stdlib parser: either a single
part with a declared content type and (already charset-decoded) payload text,
or a multipart container. -/
inductive MimeMsg where
  | single (contentType : String) (payload : String)
  | multi (contentType : String) (parts : List MimeMsg)

/-- `Message.get_content_type()`. -/
def get_content_type : MimeMsg → String
  | .single ct _ => ct
  | .multi ct _ => ct

/-- `Message.is_multipart()`. -/
def is_multipart : MimeMsg → Bool
  | .single .. => false
  | .multi .. => true

mutual
/-- `Message.walk()`: depth-first traversal starting with the message itself,
then each part's own walk, in structural order. -/
def walk : MimeMsg → List MimeMsg
  | .single ct p => [.single ct p]
  | .multi ct parts => .multi ct parts :: walkList parts

/-- Concatenated walks of a list of parts, in order. -/
def walkList : List MimeMsg → List MimeMsg
  | [] => []
  | p :: rest => walk p ++ walkList rest
end

/-- `part.get_payload(decode=True)` followed by `.decode(charset, errors="replace")`:
for a single part this yields the part's decoded text; on a multipart node
`get_payload(decode=True)` is `None`, so `.decode` raises (modelled `none`). -/
def decodedPayload : MimeMsg → Option String
  | .single _ p => some p
  | .multi .. => none

/-- `inboxium.py`, `_get_body`: if the message is multipart, walk the parts and
return the decoded payload of the first one whose content type is
`"text/plain"`; if none exists, return `""`.  A non-multipart message's single
payload is decoded directly.  `none` models an escaping exception. -/
def _get_body (msg : MimeMsg) : Option String :=
  if is_multipart msg then
    match (walk msg).find? (fun part => get_content_type part == "text/plain") with
    | some part => decodedPayload part
    | none => some ""
  else
    decodedPayload msg

/-- First element of the walk whose declared content type is `text/plain`. -/
def firstPlain (msg : MimeMsg) : Option MimeMsg :=
  (walk msg).find? (fun part => get_content_type part == "text/plain")

/-- `inboxium.py`, `_get_real_sender`: format the connection origin when peer
info is present (`if peer:`), else `""`. -/
def _get_real_sender (host_name : String) (peer : Option (String × Nat)) : String :=
  match peer with
  | some (h, p) => s!"{host_name} (http://{h}:{p})"
  | none => ""

mutual
/-- `Message.as_string()`: re-serialization of the parsed message, modelled as
a simple structural rendering (the exact stdlib text is irrelevant here). -/
def as_string : MimeMsg → String
  | .single ct p => "Content-Type: " ++ ct ++ "\n\n" ++ p
  | .multi ct parts => "Content-Type: " ++ ct ++ "\n\n" ++ as_stringList parts

/-- Serialization of a list of parts, in order. -/
def as_stringList : List MimeMsg → String
  | [] => ""
  | p :: rest => as_string p ++ as_stringList rest
end

/-- The parsed form of `envelope.content` (output of
`BytesParser(policy=policy.default).parsebytes`): the MIME structure plus the
already-decoded `Subject` header (`none` when the header is absent). -/
structure ParsedMsg where
  subject : Option String
  mime : MimeMsg

/-- `aiosmtpd` envelope: the fields this program reads. -/
structure Envelope where
  content : ParsedMsg
  mail_from : Option String
  rcpt_tos : List String

/-- `aiosmtpd` session: the fields this program reads. -/
structure Session where
  host_name : String
  peer : Option (String × Nat)
deriving DecidableEq, Repr

/-- `inboxium.py`, `_prepare_message`: build the `InboxMessage` for a completed
transaction.  `envelope.mail_from or ""` maps `None` (and `""`) to `""`;
`msg.get("Subject", "")` maps an absent header to `""`.  `none` models an
exception escaping from `_get_body`. -/
def _prepare_message (envelope : Envelope) (session : Session) : Option InboxMessage :=
  match _get_body envelope.content.mime with
  | none => none
  | some body =>
    some {
      by_ := envelope.rcpt_tos
      sender := envelope.mail_from.getD ""
      subject := envelope.content.subject.getD ""
      text := body
      raw := as_string envelope.content.mime
      real_sender := _get_real_sender session.host_name session.peer
    }

/-- `inboxium.py`, `Inbox.handle_RCPT`: append the address to
`envelope.rcpt_tos` and acknowledge with `"250 OK"`. -/
def handle_RCPT (envelope : Envelope) (address : String) : Envelope × String :=
  ({ envelope with rcpt_tos := envelope.rcpt_tos ++ [address] }, "250 OK")

/-- The dispatch condition of `Inbox.handle_DATA`:
`not any((h.by, h.sender, h.subject, h.text)) or
 any((h.by == msg.by, h.sender == msg.sender, h.subject == msg.subject, h.text == msg.text))`. -/
def fires (h : Handler) (m : InboxMessage) : Bool :=
  (!(truthy h.by_ || truthy h.sender || truthy h.subject || truthy h.text)) ||
  (optPyEq h.by_ (.strList m.by_) || optPyEq h.sender (.str m.sender) ||
   optPyEq h.subject (.str m.subject) || optPyEq h.text (.str m.text))

/-- The `for h in self.handlers:` loop of `Inbox.handle_DATA`: returns the
identifiers of the callbacks invoked, in order, and whether an invoked callback
raised (which aborts the loop; `if h.block: break` also stops it). -/
def dispatchLoop : List Handler → InboxMessage → List Nat × Bool
  | [], _ => ([], false)
  | h :: rest, m =>
    if fires h m then
      if h.raises then ([h.func], true)
      else if blockTruthy h.block then ([h.func], false)
      else
        match dispatchLoop rest m with
        | (ids, exc) => (h.func :: ids, exc)
    else dispatchLoop rest m

/-- `inboxium.py`, `Inbox.handle_DATA`: normalize then dispatch inside
`try/except`; any exception yields `"500 Internal server error"`, otherwise
`"250 Message accepted for delivery"`.  Returns the invoked callback
identifiers and the protocol status string. -/
def handle_DATA (handlers : List Handler) (envelope : Envelope) (session : Session) :
    List Nat × String :=
  match _prepare_message envelope session with
  | none => ([], "500 Internal server error")
  | some msg =>
    match dispatchLoop handlers msg with
    | (ids, true) => (ids, "500 Internal server error")
    | (ids, false) => (ids, "250 Message accepted for delivery")

/-- SMTP reply-code classes (RFC 5321): transient negative completion replies
begin with digit `4`; permanent negative with `5`; positive completion with `2`. -/
def isTransientFailureCode (s : String) : Bool :=
  match s.data with
  | c :: _ => c == '4'
  | [] => false

/-- A positive-completion (acceptance) SMTP reply begins with digit `2`. -/
def isAcceptanceCode (s : String) : Bool :=
  match s.data with
  | c :: _ => c == '2'
  | [] => false

/-- Helper: Python truthiness of the empty-string value is `false`. -/
theorem truthy_empty_str : truthy (some (.str "")) = false := rfl

/-- C1: a handler with at least one present constraint fires whenever any
single present constraint equals the corresponding message field, regardless
of whether other present constraints match (OR semantics, not AND). -/
theorem fires_of_any_present_constraint_match (h : Handler) (m : InboxMessage)
    (hc : ((truthy h.by_ && optPyEq h.by_ (.strList m.by_)) ||
           (truthy h.sender && optPyEq h.sender (.str m.sender)) ||
           (truthy h.subject && optPyEq h.subject (.str m.subject)) ||
           (truthy h.text && optPyEq h.text (.str m.text))) = true) :
    fires h m = true := by
  simp only [fires, Bool.or_eq_true, Bool.and_eq_true] at hc ⊢
  rcases hc with ((⟨_, hq⟩ | ⟨_, hq⟩) | ⟨_, hq⟩) | ⟨_, hq⟩ <;> simp [hq]

/-- C1 witness: registration `{sender := "nomatch@x", subject := "X"}` fires
for a message with subject `"X"` and sender `"other@y"`. -/
theorem fires_of_any_present_constraint_match_witness :
    fires { func := 0, sender := some (.str "nomatch@x"), subject := some (.str "X") }
      { by_ := ["r@y"], sender := "other@y", subject := "X", text := "body",
        raw := "", real_sender := "" } = true :=
  fires_of_any_present_constraint_match _ _ (by decide)

/-- C4: a handler registered with every constraint absent fires for every
message, regardless of the message's content. -/
theorem no_constraints_always_fires (h : Handler) (m : InboxMessage)
    (hby : h.by_ = none) (hs : h.sender = none)
    (hsub : h.subject = none) (ht : h.text = none) :
    fires h m = true := by
  simp [fires, hby, hs, hsub, ht, truthy, optPyEq]

/-- C4 witness: the default registration (no constraints) fires on a concrete
message. -/
theorem no_constraints_always_fires_witness :
    fires { func := 3 }
      { by_ := ["r@y"], sender := "other@y", subject := "X", text := "body",
        raw := "", real_sender := "" } = true :=
  no_constraints_always_fires _ _ rfl rfl rfl rfl

/-- C8: a handler whose four constraints are all present but equal to the
empty string is treated as unconstrained (Python truthiness makes the
`not any(...)` test succeed) and fires for every message, even when no message
field is empty. -/
theorem empty_string_constraints_treated_as_absent (h : Handler) (m : InboxMessage)
    (hby : h.by_ = some (.str "")) (hs : h.sender = some (.str ""))
    (hsub : h.subject = some (.str "")) (ht : h.text = some (.str "")) :
    fires h m = true := by
  simp [fires, hby, hs, hsub, ht, truthy_empty_str]

/-- C8 witness: the all-empty-string registration fires on a message none of
whose fields is the empty string. -/
theorem empty_string_constraints_treated_as_absent_witness :
    fires { func := 4, by_ := some (.str ""), sender := some (.str ""),
            subject := some (.str ""), text := some (.str "") }
      { by_ := ["r@y"], sender := "other@y", subject := "X", text := "body",
        raw := "raw", real_sender := "rs" } = true :=
  empty_string_constraints_treated_as_absent _ _ rfl rfl rfl rfl

/-- C2: for a present `matchBy` constraint the comparison `h.by == msg.by` is
satisfied exactly when the constraint value equals the full recipients list of
the message (exact equality, not substring or membership), a satisfied
`matchBy` comparison makes the handler fire, and there is a message for which
a present `matchBy` constraint fires its handler (the constraint holding the
recipient list itself, which the unenforced `str | None` annotation does not
prevent at runtime). -/
theorem matchBy_exact_equality :
    (∀ (h : Handler) (m : InboxMessage), truthy h.by_ = true →
      ((optPyEq h.by_ (.strList m.by_) = true ↔ h.by_ = some (.strList m.by_)) ∧
       (optPyEq h.by_ (.strList m.by_) = true → fires h m = true))) ∧
    (∃ (h : Handler) (m : InboxMessage),
      truthy h.by_ = true ∧ h.sender = none ∧ h.subject = none ∧ h.text = none ∧
      optPyEq h.by_ (.strList m.by_) = true ∧ fires h m = true) := by
  constructor
  · intro h m _
    constructor
    · cases hb : h.by_ with
      | none => simp [optPyEq]
      | some a => simp [optPyEq]
    · intro hq
      simp [fires, hq]
  · exact ⟨{ func := 0, by_ := some (.strList ["a@x", "b@y"]) },
           { by_ := ["a@x", "b@y"], sender := "s@z", subject := "Subj",
             text := "t", raw := "", real_sender := "" },
           by decide, rfl, rfl, rfl, by decide, by decide⟩

/-- C2 witness: the equality test and firing, at a concrete handler whose
`matchBy` value equals the message's recipient list. -/
theorem matchBy_exact_equality_witness :
    fires { func := 0, by_ := some (.strList ["a@x", "b@y"]) }
      { by_ := ["a@x", "b@y"], sender := "s@z", subject := "Subj",
        text := "t", raw := "", real_sender := "" } = true :=
  (matchBy_exact_equality.1
    { func := 0, by_ := some (.strList ["a@x", "b@y"]) }
    { by_ := ["a@x", "b@y"], sender := "s@z", subject := "Subj",
      text := "t", raw := "", real_sender := "" }
    (by decide)).2 (by decide)

/-- C3: with two registered handlers that both fire on a message and whose
callbacks complete normally, a true `block` flag on the first stops dispatch
after it (the second callback is never invoked), while a false `block` flag
lets both run, first then second. -/
theorem block_flag_short_circuit (h1 h2 : Handler) (m : InboxMessage)
    (f1 : fires h1 m = true) (f2 : fires h2 m = true)
    (r1 : h1.raises = false) (r2 : h2.raises = false) :
    (h1.block = some true → dispatchLoop [h1, h2] m = ([h1.func], false)) ∧
    (h1.block = some false →
      dispatchLoop [h1, h2] m = ([h1.func, h2.func], false)) := by
  constructor
  · intro hb
    simp [dispatchLoop, f1, r1, hb, blockTruthy]
  · intro hb
    cases hb2 : blockTruthy h2.block <;>
      simp [dispatchLoop, f1, f2, r1, r2, hb, hb2, blockTruthy]

/-- C3 witness: both cases at concrete handlers that both fire. -/
theorem block_flag_short_circuit_witness :
    dispatchLoop [{ func := 1, block := some true }, { func := 2 }]
      { by_ := [], sender := "", subject := "", text := "", raw := "",
        real_sender := "" } = ([1], false) ∧
    dispatchLoop [{ func := 1, block := some false }, { func := 2 }]
      { by_ := [], sender := "", subject := "", text := "", raw := "",
        real_sender := "" } = ([1, 2], false) :=
  ⟨(block_flag_short_circuit _ _ _ (by decide) (by decide) rfl rfl).1 rfl,
   (block_flag_short_circuit _ _ _ (by decide) (by decide) rfl rfl).2 rfl⟩

/-- C9: a `None` block flag (permitted by the `bool | None` field type) is
falsy in `if h.block:`, so dispatch does not stop after the first handler: the
second handler's callback is also invoked, in order. -/
theorem none_block_does_not_stop_dispatch (h1 h2 : Handler) (m : InboxMessage)
    (f1 : fires h1 m = true) (f2 : fires h2 m = true)
    (r1 : h1.raises = false) (r2 : h2.raises = false)
    (b1 : h1.block = none) :
    dispatchLoop [h1, h2] m = ([h1.func, h2.func], false) := by
  cases hb2 : blockTruthy h2.block <;>
    simp [dispatchLoop, f1, f2, r1, r2, b1, hb2, blockTruthy]

/-- C9 witness: with `block := none` on the first handler, both callbacks run. -/
theorem none_block_does_not_stop_dispatch_witness :
    dispatchLoop [{ func := 1, block := none }, { func := 2 }]
      { by_ := [], sender := "", subject := "", text := "", raw := "",
        real_sender := "" } = ([1, 2], false) :=
  none_block_does_not_stop_dispatch _ _ _ (by decide) (by decide) rfl rfl rfl

/-- C6: for a multipart message, the extracted body is the decoded content of
the first part in walk order whose declared content type is `text/plain`, and
when no such part exists the body is the empty string. -/
theorem body_is_first_plain_part (ct : String) (parts : List MimeMsg) :
    (∀ pct s, firstPlain (.multi ct parts) = some (.single pct s) →
      _get_body (.multi ct parts) = some s) ∧
    (firstPlain (.multi ct parts) = none → _get_body (.multi ct parts) = some "") := by
  constructor
  · intro pct s hfp
    simp only [firstPlain] at hfp
    simp only [_get_body, is_multipart, if_pos, hfp, decodedPayload]
  · intro hfp
    simp only [firstPlain] at hfp
    simp only [_get_body, is_multipart, if_pos, hfp]

/-- C6 witness: a multipart payload with a `text/plain` part `"hello"` and a
`text/html` part normalizes to body `"hello"`; one with no plain-text part
normalizes to the empty body. -/
theorem body_is_first_plain_part_witness :
    _get_body (.multi "multipart/alternative"
      [.single "text/plain" "hello", .single "text/html" "<b>hi</b>"])
      = some "hello" ∧
    _get_body (.multi "multipart/alternative" [.single "text/html" "<b>hi</b>"])
      = some "" :=
  ⟨(body_is_first_plain_part "multipart/alternative"
      [.single "text/plain" "hello", .single "text/html" "<b>hi</b>"]).1
      "text/plain" "hello" rfl,
   (body_is_first_plain_part "multipart/alternative"
      [.single "text/html" "<b>hi</b>"]).2 rfl⟩

/-- C7: three recipient-accept events for `a`, `b`, `c` are each acknowledged
with `"250 OK"`, and a transaction started with no recipients then holds
exactly `[a, b, c]` in that order (duplicates preserved, since `a`, `b`, `c`
are arbitrary and may coincide); a successfully normalized message carries
that same list as its recipient sequence. -/
theorem recipients_appended_in_order (e : Envelope) (sess : Session)
    (a b c : String) (h0 : e.rcpt_tos = []) :
    (handle_RCPT e a).2 = "250 OK" ∧
    (handle_RCPT (handle_RCPT e a).1 b).2 = "250 OK" ∧
    (handle_RCPT (handle_RCPT (handle_RCPT e a).1 b).1 c).2 = "250 OK" ∧
    (handle_RCPT (handle_RCPT (handle_RCPT e a).1 b).1 c).1.rcpt_tos = [a, b, c] ∧
    (∀ m, _prepare_message (handle_RCPT (handle_RCPT (handle_RCPT e a).1 b).1 c).1 sess
        = some m → m.by_ = [a, b, c]) := by
  refine ⟨rfl, rfl, rfl, by simp [handle_RCPT, h0], ?_⟩
  intro m hm
  simp only [_prepare_message, handle_RCPT] at hm
  cases hgb : _get_body e.content.mime with
  | none => rw [hgb] at hm; cases hm
  | some body =>
    rw [hgb] at hm
    cases hm
    simp [h0]

/-- C7 witness: a concrete transaction with the duplicate pair `a = b`
produces recipient list `["a@x", "a@x", "c@z"]` with the duplicate kept. -/
theorem recipients_appended_in_order_witness :
    (handle_RCPT { content := { subject := some "S", mime := .single "text/plain" "body" },
                   mail_from := some "from@w", rcpt_tos := [] } "a@x").2 = "250 OK" ∧
    (_prepare_message
      (handle_RCPT (handle_RCPT (handle_RCPT
        { content := { subject := some "S", mime := .single "text/plain" "body" },
          mail_from := some "from@w", rcpt_tos := [] } "a@x").1 "a@x").1 "c@z").1
      { host_name := "h", peer := none }).map (fun m => m.by_)
      = some ["a@x", "a@x", "c@z"] := by
  have h := recipients_appended_in_order
    { content := { subject := some "S", mime := .single "text/plain" "body" },
      mail_from := some "from@w", rcpt_tos := [] }
    { host_name := "h", peer := none } "a@x" "a@x" "c@z" rfl
  refine ⟨h.1, ?_⟩
  have h5 := h.2.2.2.2
  cases hp : _prepare_message
      (handle_RCPT (handle_RCPT (handle_RCPT
        { content := { subject := some "S", mime := .single "text/plain" "body" },
          mail_from := some "from@w", rcpt_tos := [] } "a@x").1 "a@x").1 "c@z").1
      { host_name := "h", peer := none } with
  | none => cases hp ▸ (by decide :
      (_prepare_message
        (handle_RCPT (handle_RCPT (handle_RCPT
          { content := { subject := some "S", mime := .single "text/plain" "body" },
            mail_from := some "from@w", rcpt_tos := [] } "a@x").1 "a@x").1 "c@z").1
        { host_name := "h", peer := none }).isSome = true)
  | some m => simp [h5 m hp]

/-- C10: when normalization succeeds and no invoked handler callback raises
(the dispatch loop finishes without an escaping exception), `handle_DATA`
returns exactly `"250 Message accepted for delivery"`, including when zero
handlers fire. -/
theorem clean_dispatch_returns_accept (handlers : List Handler)
    (envelope : Envelope) (session : Session) (m : InboxMessage)
    (hprep : _prepare_message envelope session = some m)
    (hnoexc : (dispatchLoop handlers m).2 = false) :
    (handle_DATA handlers envelope session).2
      = "250 Message accepted for delivery" := by
  simp only [handle_DATA, hprep]
  cases hd : dispatchLoop handlers m with
  | mk ids exc =>
    rw [hd] at hnoexc
    cases exc with
    | false => rfl
    | true => cases hnoexc

/-- C10 witness: a transaction with a single non-matching handler (zero
handlers fire) is accepted with the exact status string. -/
theorem clean_dispatch_returns_accept_witness :
    (handle_DATA [{ func := 7, sender := some (.str "nomatch@q") }]
      { content := { subject := some "S", mime := .single "text/plain" "body" },
        mail_from := some "from@w", rcpt_tos := ["to@y"] }
      { host_name := "h", peer := some ("1.2.3.4", 25) }).2
      = "250 Message accepted for delivery" :=
  clean_dispatch_returns_accept _ _ _
    { by_ := ["to@y"], sender := "from@w", subject := "S", text := "body",
      raw := "Content-Type: text/plain\n\nbody",
      real_sender := "h (http://1.2.3.4:25)" }
    (by decide) (by decide)

/-- Helper for C5: once the loop reaches a firing handler whose callback
raises, the exception escapes: the invoked callbacks are exactly the firing
handlers of the prefix (none of which raised or blocked) followed by the
failing one, and nothing after it runs. -/
theorem dispatchLoop_raises_abort (m : InboxMessage) (h : Handler)
    (rest : List Handler) (hf : fires h m = true) (hr : h.raises = true)
    (pre : List Handler)
    (hpre : ∀ g ∈ pre, g.raises = false ∧
      (fires g m = true → blockTruthy g.block = false)) :
    dispatchLoop (pre ++ h :: rest) m
      = ((pre.filter (fun g => fires g m)).map (fun g => g.func) ++ [h.func],
         true) := by
  induction pre with
  | nil => simp [dispatchLoop, hf, hr]
  | cons g gs ih =>
    have hg := hpre g (List.mem_cons_self g gs)
    have hgs : ∀ x ∈ gs, x.raises = false ∧
        (fires x m = true → blockTruthy x.block = false) :=
      fun x hx => hpre x (List.mem_cons_of_mem g hx)
    by_cases hfg : fires g m = true
    · simp [dispatchLoop, hfg, hg.1, hg.2 hfg, ih hgs, List.filter_cons]
    · simp [dispatchLoop, hfg, ih hgs, List.filter_cons,
        Bool.eq_false_iff.mpr hfg]

/-- C5 counterexample: with a firing handler whose callback raises,
`handle_DATA` returns `"500 Internal server error"`, which is not an SMTP
transient-failure (4xx) code, contrary to the claim's characterization. -/
theorem handler_exception_code_not_transient :
    (handle_DATA [{ func := 1, raises := true }, { func := 2 }]
      { content := { subject := some "S", mime := .single "text/plain" "body" },
        mail_from := some "from@w", rcpt_tos := ["to@y"] }
      { host_name := "h", peer := none }).2 = "500 Internal server error" ∧
    isTransientFailureCode
      ((handle_DATA [{ func := 1, raises := true }, { func := 2 }]
        { content := { subject := some "S", mime := .single "text/plain" "body" },
          mail_from := some "from@w", rcpt_tos := ["to@y"] }
        { host_name := "h", peer := none }).2) = false := by
  constructor
  · rfl
  · decide

/-- C5 (amended): when a firing handler's callback raises, no handler
registered after it is invoked (the invoked callbacks are exactly the firing,
non-blocking prefix followed by the failing handler), and `handle_DATA`
returns the permanent-failure code `"500 Internal server error"` — a 5xx
code, not an acceptance (2xx) code and not a transient (4xx) code. -/
theorem handler_exception_aborts_with_500 (pre : List Handler) (h : Handler)
    (rest : List Handler) (envelope : Envelope) (session : Session)
    (m : InboxMessage)
    (hprep : _prepare_message envelope session = some m)
    (hf : fires h m = true) (hr : h.raises = true)
    (hpre : ∀ g ∈ pre, g.raises = false ∧
      (fires g m = true → blockTruthy g.block = false)) :
    handle_DATA (pre ++ h :: rest) envelope session
      = ((pre.filter (fun g => fires g m)).map (fun g => g.func) ++ [h.func],
         "500 Internal server error") ∧
    isAcceptanceCode "500 Internal server error" = false ∧
    isTransientFailureCode "500 Internal server error" = false := by
  refine ⟨?_, by decide, by decide⟩
  simp only [handle_DATA, hprep]
  rw [dispatchLoop_raises_abort m h rest hf hr pre hpre]

/-- C5 witness: a firing non-blocking handler, then a raising handler, then a
third handler — the third is never invoked and the status is the 500 string. -/
theorem handler_exception_aborts_with_500_witness :
    handle_DATA [{ func := 0, block := some false },
                 { func := 1, raises := true }, { func := 2 }]
      { content := { subject := some "S", mime := .single "text/plain" "body" },
        mail_from := some "from@w", rcpt_tos := ["to@y"] }
      { host_name := "h", peer := none }
      = ([0, 1], "500 Internal server error") :=
  ((handler_exception_aborts_with_500
      [{ func := 0, block := some false }] { func := 1, raises := true }
      [{ func := 2 }]
      { content := { subject := some "S", mime := .single "text/plain" "body" },
        mail_from := some "from@w", rcpt_tos := ["to@y"] }
      { host_name := "h", peer := none }
      { by_ := ["to@y"], sender := "from@w", subject := "S", text := "body",
        raw := "Content-Type: text/plain\n\nbody", real_sender := "" }
      (by decide) (by decide) rfl (by decide)).1).trans (by decide)
